import Mathlib

/-!
Verification of the resilient extraction engine of `busqueda_laptop`
(`src/scraper.py`): the block detector, the per-item field extractor, the
attempt driver and the retry controller, shallowly embedded in Lean.

Strings are modelled with Lean `String` over their character lists; Python
string operations (`in`, `lower`, `strip`, slicing, `isdigit`) are embedded
as executable functions below, faithful to Python semantics over the ASCII
range that all the scraper's literals live in.  Prices are modelled as exact
rationals (`float` rounding is not modelled; the spec speaks of decimals).
-/

namespace AmazonScraper

/-- Python substring prefix test: `leadsList n h` is true when `n` is an
initial segment of `h` (the building block of the `in` operator). -/
def leadsList : List Char → List Char → Bool
  | [], _ => true
  | _ :: _, [] => false
  | a :: as, b :: bs => a == b && leadsList as bs

/-- Occurrence of `needle` as a contiguous subsequence of `hay`. -/
def containsSeq : List Char → List Char → Bool
  | needle, [] => leadsList needle []
  | needle, c :: rest => leadsList needle (c :: rest) || containsSeq needle rest

/-- Python `needle in hay` for strings. -/
def pyIn (needle hay : String) : Bool :=
  containsSeq needle.toList hay.toList

/-- Python slice `s[:n]` (first `n` characters). -/
def takeStr (n : Nat) (s : String) : String :=
  (s.toList.take n).asString

/-- Python `s.lower()`, modelled characterwise over the ASCII range the
scraper's literals live in. -/
def pyLower (s : String) : String :=
  (s.toList.map Char.toLower).asString

/-- `AmazonScraper._is_blocked` (src/scraper.py lines 47-57): the disjunction
of the six block signals.  Python lowercases before slicing
(`page_content.lower()[:2000]`); slicing and lowercasing commute on the
ASCII content modelled here, and we keep the source's order. -/
def is_blocked (title page_content : String) : Bool :=
  pyIn "sorry" (pyLower title) ||
  pyIn "captcha" (pyLower title) ||
  pyIn "robot" (pyLower title) ||
  pyIn "something went wrong" (takeStr 2000 (pyLower page_content)) ||
  pyIn "validateCaptcha" (takeStr 3000 page_content) ||
  pyIn "Type the characters you see" (takeStr 3000 page_content)

/-- Python `s.strip()` (whitespace removed at both ends), characterwise
over the ASCII whitespace the scraper's text carries. -/
def pyStrip (s : String) : String :=
  (((s.toList.dropWhile Char.isWhitespace).reverse.dropWhile
      Char.isWhitespace).reverse).asString

/-- `ProductData` (src/scraper.py lines 14-18): the record emitted per kept
result item.  `price_usd` is declared optional in the source
(`Optional[float]`); prices are modelled as exact rationals. -/
structure ProductData where
  title : String
  price_usd : Option Rat
  url : String
  ships_to_colombia : Bool
  deriving Repr, DecidableEq

/-- One rendered result item, as the extractor loop of `_attempt_scrape`
(src/scraper.py lines 190-263) observes it through locators.  An outer
`none` means the locator matched nothing (`count() == 0`); for attribute
reads the inner `Option` is the attribute value, `none` when the attribute
is absent (`get_attribute` returning `None`).  Text locators carry their
`inner_text` and their optional `aria-label`. -/
structure Item where
  imgAlt : Option (Option String)
  h2aSpan : Option (String × Option String)
  spanMedium : Option (String × Option String)
  spanBasePlus : Option (String × Option String)
  h2 : Option (String × Option String)
  h2a : Option (Option String)
  aLinkNormal : Option (Option String)
  priceWhole : Option String
  priceFraction : Option String
  delivery : Option String
  deriving Repr, DecidableEq

/-- `self.base_url` (src/scraper.py line 24). -/
def base_url : String := "https://www.amazon.com"

/-- `self.max_retries` (src/scraper.py line 25). -/
def max_retries : Nat := 3

/-- Primary title strategy (src/scraper.py lines 192-197): the `alt`
attribute of the first `img.s-image`, defaulting to the empty string
(`get_attribute(..) or ""`), left empty when the locator matches nothing. -/
def titleInit (it : Item) : String :=
  match it.imgAlt with
  | some alt => alt.getD ""
  | none => ""

/-- The fallback loop over the title locators (src/scraper.py lines
200-218): a present locator contributes its `inner_text`, replaced by its
`aria-label` (or `""`) when the stripped text is empty; a non-empty
candidate strictly longer (stripped) than the current title replaces it,
and a replacement longer than 20 characters ends the loop. -/
def titleLoop : String → List (Option (String × Option String)) → String
  | t, [] => t
  | t, none :: rest => titleLoop t rest
  | t, some (txt, aria) :: rest =>
    let temp := if pyStrip txt == "" then aria.getD "" else txt
    if temp != "" && (pyStrip temp).length > (pyStrip t).length then
      let t2 := pyStrip temp
      if t2.length > 20 then t2 else titleLoop t2 rest
    else titleLoop t rest

/-- Title resolution for one item (src/scraper.py lines 192-220): the image
`alt` primary strategy, the fallback cascade when it is empty or its
stripped length is under 15, then a final strip. -/
def titleOf (it : Item) : String :=
  let t0 := titleInit it
  let t1 :=
    if t0 == "" || (pyStrip t0).length < 15 then
      titleLoop t0 [it.h2aSpan, it.spanMedium, it.spanBasePlus, it.h2]
    else t0
  pyStrip t1

/-- Link locator cascade (src/scraper.py lines 224-230): the first `h2 a`
anchor, else the first `a.a-link-normal`; `none` when both match nothing. -/
def hrefOf (it : Item) : Option (Option String) :=
  match it.h2a with
  | some h => some h
  | none => it.aLinkNormal

/-- URL resolution (src/scraper.py lines 229-235): with no link locator the
item is dropped (`none`); a truthy `href` is concatenated onto the base
URL (`f-string` interpolation), a `None`/empty `href` gives `""`, and an
empty URL drops the item. -/
def urlOf (base : String) (it : Item) : Option String :=
  match hrefOf it with
  | none => none
  | some href =>
    let url := match href with
      | some h => if h == "" then "" else base ++ h
      | none => ""
    if url == "" then none else some url

/-- The whole-part cleaning (src/scraper.py line 245):
`replace(',', '').replace('.', '').strip()`. -/
def cleanWhole (s : String) : String :=
  pyStrip ((s.toList.filter (fun c => !(c == ',') && !(c == '.'))).asString)

/-- Python `s.isdigit()` over the ASCII digits that price text carries:
non-empty and all digits. -/
def pyIsDigit (s : String) : Bool :=
  !(s == "") && s.toList.all Char.isDigit

/-- Value of an ASCII digit string, most significant first. -/
def digitsVal (s : String) : Nat :=
  s.toList.foldl (fun a c => a * 10 + (c.toNat - 48)) 0

/-- Python `float(f"{whole}.{frac}")` for `whole` already known to be all
digits (src/scraper.py line 247): parses when `frac` is a (possibly empty)
digit string, giving the exact decimal `whole.frac`; any other fraction
text is modelled as a conversion failure (`ValueError`), i.e. `none`.
(Exotic accepted spellings of `float` such as exponents or underscores in
the fraction are outside the modelled range; no claim depends on them.) -/
def pyFloatDot (whole frac : String) : Option Rat :=
  if frac.toList.all Char.isDigit then
    some ((digitsVal whole : Rat) + (digitsVal frac : Rat) / 10 ^ frac.length)
  else none

/-- Price extraction (src/scraper.py lines 237-247): price starts at the
`0.0` sentinel; when the whole-part locator matches, the fraction text
defaults to `"00"` when its locator is absent, the cleaned whole part must
be all digits for composition, and a failing `float` conversion (`none`)
aborts the item via the per-item exception handler. -/
def priceOf (it : Item) : Option Rat :=
  match it.priceWhole with
  | none => some 0
  | some w =>
    let frac := it.priceFraction.getD "00"
    let clean := cleanWhole w
    if pyIsDigit clean then pyFloatDot clean frac else some 0

/-- Shipping eligibility (src/scraper.py lines 249-255): true iff the
delivery locator matches and its text contains "Colombia". -/
def shipsOf (it : Item) : Bool :=
  match it.delivery with
  | some t => pyIn "Colombia" t
  | none => false

/-- Extraction of one result item (src/scraper.py lines 190-263): empty
resolved title drops the item, then the link cascade (both locators missing
or an untruthy `href` drops it), then price (a `float` fault drops it via
the per-item handler), then the keep filter
`"Lenovo" in title or price > 0`. -/
def extractItem (it : Item) : Option ProductData :=
  let title := titleOf it
  if title == "" then none
  else match urlOf base_url it with
    | none => none
    | some url =>
      match priceOf it with
      | none => none
      | some price =>
        if pyIn "Lenovo" title || decide (0 < price) then
          some { title := title, price_usd := some price, url := url,
                 ships_to_colombia := shipsOf it }
        else none

/-- The extraction loop (src/scraper.py line 190): the first 15 result
boxes in page order, each item kept or dropped by `extractItem`. -/
def extractProducts (items : List Item) : List ProductData :=
  (items.take 15).filterMap extractItem

/-- The automation capability consumed by one attempt of `_attempt_scrape`
(src/scraper.py lines 78-274), each step an `Except` that may carry a fault
of the underlying capability.  `launch` covers the context-setup phase at
lines 80-121 (playwright start, browser launch, context and cookie setup,
page creation, stealth application), which sits BEFORE the `try:` at line
123.  The remaining steps sit inside the `try`: navigation to the homepage,
the title/content reads, the search interaction (either the search box path
or the direct-URL fallback, lines 138-160), the post-search title/content
reads, the results-marker wait (whose own timeout is already handled by the
inner `try/except` at lines 172-180, hence a `Bool`), and the collection of
the result boxes.  Teardown (`browser.close`) is modelled as fault-free. -/
structure AttemptEnv (ε : Type) where
  launch : Except ε Unit
  gotoHome : Except ε Unit
  homeTitle : Except ε String
  homeContent : Except ε String
  search : Except ε Unit
  resTitle : Except ε String
  resContent : Except ε String
  markerAppears : Bool
  collectItems : Except ε (List Item)

/-- The body of the `try:` block of `_attempt_scrape` (src/scraper.py lines
123-268): navigate home, detect a block (`none` = Blocked), search, detect
a block again, wait for the results marker (absence yields the empty
success, lines 172-180), extract.  `some records` is the Success outcome,
`none` is Blocked; a fault escapes as `Except.error`. -/
def tryBody {ε : Type} (env : AttemptEnv ε) :
    Except ε (Option (List ProductData)) := do
  env.gotoHome
  let t ← env.homeTitle
  let c ← env.homeContent
  if is_blocked t c then return none
  env.search
  let t2 ← env.resTitle
  let c2 ← env.resContent
  if is_blocked t2 c2 then return none
  if !env.markerAppears then return (some [])
  let items ← env.collectItems
  return (some (extractProducts items))

/-- `AmazonScraper._attempt_scrape` (src/scraper.py lines 78-274): the
context-setup phase runs unprotected (a fault there propagates), then the
`try:` body runs with its `except Exception` handler, which logs and
returns the empty list (line 272) — i.e. an empty Success, never Blocked. -/
def attemptScrape {ε : Type} (env : AttemptEnv ε) :
    Except ε (Option (List ProductData)) :=
  env.launch.bind fun _ =>
    match tryBody env with
    | .ok v => .ok v
    | .error _ => .ok (some [])

/-- The retry loop of `AmazonScraper.scrape` (src/scraper.py lines 59-76):
`att k` is the outcome of attempt number `k` (`none` = Blocked), `u k` the
`random.uniform(5, 10)` sample drawn after attempt `k`, `k` the current
attempt number and the second argument the number of attempts left.  The
result is instrumented with the number of attempts performed and the list
of backoff waits slept (line 71: `uniform(5, 10) * attempt`, only when
`attempt < max_retries`); the first component is the list the source
returns. -/
def scrapeAux {ε : Type} (att : Nat → Except ε (Option (List ProductData)))
    (u : Nat → Rat) : Nat → Nat → Except ε (List ProductData × Nat × List Rat)
  | _, 0 => .ok ([], 0, [])
  | k, n + 1 =>
    match att k with
    | .error e => .error e
    | .ok (some res) => .ok (res, 1, [])
    | .ok none =>
      match scrapeAux att u (k + 1) n with
      | .error e => .error e
      | .ok (res, c, ws) =>
        .ok (res, c + 1, (if 0 < n then [u k * (k : Rat)] else []) ++ ws)

/-- `AmazonScraper.scrape` (src/scraper.py lines 59-76): up to
`max_retries` attempts starting at attempt number 1; exhaustion returns the
empty list (line 76). -/
def scrape {ε : Type} (att : Nat → Except ε (Option (List ProductData)))
    (u : Nat → Rat) : Except ε (List ProductData × Nat × List Rat) :=
  scrapeAux att u 1 max_retries

/-- Mean of `random.uniform(a, b)`. -/
def expectedUniform (a b : Rat) : Rat := (a + b) / 2

/-- Expected backoff slept after blocked attempt `k`
(src/scraper.py line 71): the mean of `uniform(5, 10)` times `k`. -/
def expectedWait (k : Nat) : Rat := expectedUniform 5 10 * (k : Rat)

end AmazonScraper

/-- C2: the block detector returns true iff at least one signal holds
(title contains "sorry"/"captcha"/"robot" case-insensitively, the first
2000 chars of the lowered body contain "something went wrong", or the first
3000 chars contain "validateCaptcha" or "Type the characters you see");
in particular it is true for title "Sorry! Something went wrong." and false
for a title holding only the product query terms over a clean body. -/
theorem is_blocked_signal_disjunction :
    (∀ title content : String,
      AmazonScraper.is_blocked title content = true ↔
        (AmazonScraper.pyIn "sorry" (AmazonScraper.pyLower title) = true ∨
         AmazonScraper.pyIn "captcha" (AmazonScraper.pyLower title) = true ∨
         AmazonScraper.pyIn "robot" (AmazonScraper.pyLower title) = true ∨
         AmazonScraper.pyIn "something went wrong"
           (AmazonScraper.takeStr 2000 (AmazonScraper.pyLower content)) = true ∨
         AmazonScraper.pyIn "validateCaptcha"
           (AmazonScraper.takeStr 3000 content) = true ∨
         AmazonScraper.pyIn "Type the characters you see"
           (AmazonScraper.takeStr 3000 content) = true)) ∧
    AmazonScraper.is_blocked "Sorry! Something went wrong." "" = true ∧
    AmazonScraper.is_blocked "Lenovo ThinkBook 16"
      "Results for Lenovo ThinkBook 16" = false := by
  refine ⟨?_, by decide, by decide⟩
  intro title content
  simp [AmazonScraper.is_blocked, Bool.or_eq_true, or_assoc]

/-- Any run of the retry loop with `n` attempts remaining performs at most
`n` attempts. -/
lemma scrapeAux_attempts_le {ε : Type}
    (att : Nat → Except ε (Option (List AmazonScraper.ProductData)))
    (u : Nat → Rat) :
    ∀ n k res a ws, AmazonScraper.scrapeAux att u k n = .ok (res, a, ws) →
      a ≤ n := by
  intro n
  induction n with
  | zero =>
    intro k res a ws h
    simp [AmazonScraper.scrapeAux] at h
    omega
  | succ n ih =>
    intro k res a ws h
    cases hk : att k with
    | error e => simp [AmazonScraper.scrapeAux, hk] at h
    | ok o =>
      cases o with
      | some r =>
        simp [AmazonScraper.scrapeAux, hk] at h
        omega
      | none =>
        rw [AmazonScraper.scrapeAux, hk] at h
        cases hrec : AmazonScraper.scrapeAux att u (k + 1) n with
        | error e => simp [hrec] at h
        | ok t =>
          obtain ⟨res2, a2, ws2⟩ := t
          simp [hrec] at h
          have := ih (k + 1) res2 a2 ws2 hrec
          omega

/-- C1: the retry controller performs at most `max_retries` (= 3) attempts;
the first attempt returning a list (Success, even empty) is returned
immediately with no further attempts; if every attempt is Blocked (`none`),
the controller returns the empty list after 3 attempts. -/
theorem scrape_retry_policy :
    (∀ (ε : Type) (att : Nat → Except ε (Option (List AmazonScraper.ProductData)))
       (u : Nat → Rat) (res : List AmazonScraper.ProductData) (a : Nat)
       (ws : List Rat),
       AmazonScraper.scrape att u = .ok (res, a, ws) →
         a ≤ AmazonScraper.max_retries) ∧
    (∀ (ε : Type) (att : Nat → Except ε (Option (List AmazonScraper.ProductData)))
       (u : Nat → Rat) (res : List AmazonScraper.ProductData) (k : Nat),
       1 ≤ k → k ≤ AmazonScraper.max_retries →
       (∀ j, 1 ≤ j → j < k → att j = .ok none) →
       att k = .ok (some res) →
       ∃ ws, AmazonScraper.scrape att u = .ok (res, k, ws)) ∧
    (∀ (ε : Type) (att : Nat → Except ε (Option (List AmazonScraper.ProductData)))
       (u : Nat → Rat),
       (∀ j, 1 ≤ j → j ≤ AmazonScraper.max_retries → att j = .ok none) →
       AmazonScraper.scrape att u =
         .ok ([], AmazonScraper.max_retries, [u 1 * 1, u 2 * 2])) := by
  refine ⟨?_, ?_, ?_⟩
  · intro ε att u res a ws h
    exact scrapeAux_attempts_le att u AmazonScraper.max_retries 1 res a ws h
  · intro ε att u res k hk1 hk3 hprev hsucc
    have hk3 : k ≤ 3 := hk3
    interval_cases k
    · exact ⟨[], by simp [AmazonScraper.scrape, AmazonScraper.scrapeAux,
        AmazonScraper.max_retries, hsucc]⟩
    · have h1 := hprev 1 (by norm_num) (by norm_num)
      exact ⟨[u 1 * 1], by simp [AmazonScraper.scrape, AmazonScraper.scrapeAux,
        AmazonScraper.max_retries, h1, hsucc]⟩
    · have h1 := hprev 1 (by norm_num) (by norm_num)
      have h2 := hprev 2 (by norm_num) (by norm_num)
      exact ⟨[u 1 * 1, u 2 * 2], by simp [AmazonScraper.scrape,
        AmazonScraper.scrapeAux, AmazonScraper.max_retries, h1, h2, hsucc]⟩
  · intro ε att u hall
    have h1 := hall 1 (by norm_num) (by norm_num [AmazonScraper.max_retries])
    have h2 := hall 2 (by norm_num) (by norm_num [AmazonScraper.max_retries])
    have h3 := hall 3 (by norm_num) (by norm_num [AmazonScraper.max_retries])
    simp [AmazonScraper.scrape, AmazonScraper.scrapeAux,
      AmazonScraper.max_retries, h1, h2, h3]

/-- C1 witness: with every attempt Blocked, the controller returns the
empty list after exactly 3 attempts. -/
theorem scrape_retry_policy_witness :
    AmazonScraper.scrape (ε := String) (fun _ => .ok none) (fun _ => 7) =
      .ok ([], AmazonScraper.max_retries, [7 * 1, 7 * 2]) :=
  scrape_retry_policy.2.2 String (fun _ => .ok none) (fun _ => 7)
    (fun _ _ _ => rfl)

/-- C8: after a Blocked attempt numbered `k` with a next attempt remaining,
the controller waits `uniform(5, 10) * k` seconds (shown here on the
all-Blocked run, whose wait trace is `u 1 * 1, u 2 * 2`); the expected wait
after attempt `k` is non-decreasing in `k`. -/
theorem backoff_policy :
    (∀ (ε : Type) (att : Nat → Except ε (Option (List AmazonScraper.ProductData)))
       (u : Nat → Rat),
       att 1 = .ok none → att 2 = .ok none → att 3 = .ok none →
       AmazonScraper.scrape att u =
         .ok ([], AmazonScraper.max_retries, [u 1 * 1, u 2 * 2])) ∧
    (∀ k : Nat, 1 ≤ k →
       AmazonScraper.expectedWait (k - 1) ≤ AmazonScraper.expectedWait k) := by
  constructor
  · intro ε att u h1 h2 h3
    simp [AmazonScraper.scrape, AmazonScraper.scrapeAux,
      AmazonScraper.max_retries, h1, h2, h3]
  · intro k _
    unfold AmazonScraper.expectedWait AmazonScraper.expectedUniform
    have h : ((k - 1 : Nat) : Rat) ≤ (k : Rat) := Nat.cast_le.mpr (Nat.sub_le k 1)
    have h2 : (0 : Rat) ≤ (5 + 10) / 2 := by norm_num
    exact mul_le_mul_of_nonneg_left h h2

/-- C8 witness: a fixed uniform sample of 6 yields waits 6 and 12 on the
all-Blocked run, and the expected wait after attempt 2 dominates the one
after attempt 1. -/
theorem backoff_policy_witness :
    AmazonScraper.scrape (ε := String) (fun _ => .ok none) (fun _ => 6) =
      .ok ([], AmazonScraper.max_retries, [6 * 1, 6 * 2]) ∧
    AmazonScraper.expectedWait (2 - 1) ≤ AmazonScraper.expectedWait 2 :=
  ⟨backoff_policy.1 String (fun _ => .ok none) (fun _ => 6) rfl rfl rfl,
   backoff_policy.2 2 (by norm_num)⟩

/-- C3: an attempt whose two block checks pass but whose results-grid
marker never appears yields the empty Success (`some []`), and the
controller treats it as terminal: the run ends after that one attempt with
the empty list and no backoff. -/
theorem results_timeout_no_retry (ε : Type)
    (envs : Nat → AmazonScraper.AttemptEnv ε) (u : Nat → Rat)
    (t c t2 c2 : String)
    (hl : (envs 1).launch = .ok ())
    (hg : (envs 1).gotoHome = .ok ())
    (ht : (envs 1).homeTitle = .ok t)
    (hc : (envs 1).homeContent = .ok c)
    (hb : AmazonScraper.is_blocked t c = false)
    (hs : (envs 1).search = .ok ())
    (ht2 : (envs 1).resTitle = .ok t2)
    (hc2 : (envs 1).resContent = .ok c2)
    (hb2 : AmazonScraper.is_blocked t2 c2 = false)
    (hm : (envs 1).markerAppears = false) :
    AmazonScraper.attemptScrape (envs 1) = .ok (some []) ∧
    AmazonScraper.scrape (fun k => AmazonScraper.attemptScrape (envs k)) u =
      .ok ([], 1, []) := by
  have hbody : AmazonScraper.tryBody (envs 1) = .ok (some []) := by
    simp [AmazonScraper.tryBody, hg, ht, hc, hb, hs, ht2, hc2, hb2, hm,
      Bind.bind, Except.bind, Pure.pure, Except.pure]
  have hatt : AmazonScraper.attemptScrape (envs 1) = .ok (some []) := by
    simp [AmazonScraper.attemptScrape, hl, hbody, Except.bind]
  refine ⟨hatt, ?_⟩
  simp [AmazonScraper.scrape, AmazonScraper.scrapeAux,
    AmazonScraper.max_retries, hatt]

/-- An attempt environment whose navigated phase all succeeds with benign
pages but whose results marker never appears within the wait. -/
def quietTimeoutEnv : AmazonScraper.AttemptEnv String :=
  { launch := .ok (), gotoHome := .ok (),
    homeTitle := .ok "Amazon.com. Spend less. Smile more.",
    homeContent := .ok "Welcome to the homepage",
    search := .ok (),
    resTitle := .ok "Amazon.com : Lenovo ThinkBook 16",
    resContent := .ok "Results page with an empty grid",
    markerAppears := false, collectItems := .ok [] }

/-- C3 witness: the quiet-timeout environment yields an empty Success that
ends the run after one attempt. -/
theorem results_timeout_no_retry_witness :
    AmazonScraper.attemptScrape quietTimeoutEnv = .ok (some []) ∧
    AmazonScraper.scrape
      (fun _ => AmazonScraper.attemptScrape quietTimeoutEnv) (fun _ => 7) =
      .ok ([], 1, []) :=
  results_timeout_no_retry String (fun _ => quietTimeoutEnv) (fun _ => 7)
    "Amazon.com. Spend less. Smile more." "Welcome to the homepage"
    "Amazon.com : Lenovo ThinkBook 16" "Results page with an empty grid"
    rfl rfl rfl rfl (by decide) rfl rfl rfl (by decide) rfl

/-- An attempt environment whose context-setup phase (browser launch,
before the try boundary of `_attempt_scrape`) faults. -/
def launchFaultEnv : AmazonScraper.AttemptEnv String :=
  { launch := .error "chromium launch failed", gotoHome := .ok (),
    homeTitle := .ok "", homeContent := .ok "", search := .ok (),
    resTitle := .ok "", resContent := .ok "", markerAppears := true,
    collectItems := .ok [] }

/-- C4 counterexample: a fault of the automation capability in the
context-setup step of an attempt (browser launch, src/scraper.py lines
88-97, which sit before the `try:` of line 123) propagates out of
`scrape()` — an exception does cross the core boundary for that step. -/
theorem scrape_fault_escape_counterexample :
    AmazonScraper.scrape
      (fun _ => AmazonScraper.attemptScrape launchFaultEnv) (fun _ => 7) =
      .error "chromium launch failed" := rfl

/-- A fault-free context setup with a navigation fault inside the try
body. -/
def navFaultEnv : AmazonScraper.AttemptEnv String :=
  { launch := .ok (), gotoHome := .error "net::ERR_TIMED_OUT",
    homeTitle := .ok "", homeContent := .ok "", search := .ok (),
    resTitle := .ok "", resContent := .ok "", markerAppears := true,
    collectItems := .ok [] }

/-- C4 amended: provided every attempt's context-setup phase (lines 80-121,
before the `try:`) completes without fault, `scrape()` never raises; a
fault anywhere in the navigated phase of an attempt (inside the `try:`,
lines 123-268) is caught at the attempt boundary and that attempt yields
the empty Success, which is terminal — the run ends there with the empty
list, no retry and no backoff. -/
theorem scrape_fault_containment :
    (∀ (ε : Type) (envs : Nat → AmazonScraper.AttemptEnv ε) (u : Nat → Rat),
       (∀ k, (envs k).launch = .ok ()) →
       ∃ r, AmazonScraper.scrape
         (fun k => AmazonScraper.attemptScrape (envs k)) u = .ok r) ∧
    (∀ (ε : Type) (env : AmazonScraper.AttemptEnv ε) (e : ε),
       env.launch = .ok () → AmazonScraper.tryBody env = .error e →
       AmazonScraper.attemptScrape env = .ok (some [])) ∧
    (∀ (ε : Type) (envs : Nat → AmazonScraper.AttemptEnv ε) (u : Nat → Rat)
       (e : ε),
       (envs 1).launch = .ok () → AmazonScraper.tryBody (envs 1) = .error e →
       AmazonScraper.scrape
         (fun k => AmazonScraper.attemptScrape (envs k)) u = .ok ([], 1, [])) := by
  have hok : ∀ (ε : Type) (env : AmazonScraper.AttemptEnv ε),
      env.launch = .ok () → ∃ v, AmazonScraper.attemptScrape env = .ok v := by
    intro ε env hl
    cases hb : AmazonScraper.tryBody env with
    | ok v => exact ⟨v, by simp [AmazonScraper.attemptScrape, hl, hb, Except.bind]⟩
    | error e =>
      exact ⟨some [], by simp [AmazonScraper.attemptScrape, hl, hb, Except.bind]⟩
  refine ⟨?_, ?_, ?_⟩
  · intro ε envs u hl
    have haux : ∀ n k, ∃ r,
        AmazonScraper.scrapeAux
          (fun k => AmazonScraper.attemptScrape (envs k)) u k n = .ok r := by
      intro n
      induction n with
      | zero => intro k; exact ⟨([], 0, []), rfl⟩
      | succ n ih =>
        intro k
        obtain ⟨v, hv⟩ := hok ε (envs k) (hl k)
        cases v with
        | some res =>
          exact ⟨(res, 1, []), by simp [AmazonScraper.scrapeAux, hv]⟩
        | none =>
          obtain ⟨⟨res, c, ws⟩, hr⟩ := ih (k + 1)
          refine ⟨(res, c + 1, (if 0 < n then [u k * (k : Rat)] else []) ++ ws), ?_⟩
          simp [AmazonScraper.scrapeAux, hv, hr]
    exact haux AmazonScraper.max_retries 1
  · intro ε env e hl hb
    simp [AmazonScraper.attemptScrape, hl, hb, Except.bind]
  · intro ε envs u e hl hb
    have hatt : AmazonScraper.attemptScrape (envs 1) = .ok (some []) := by
      simp [AmazonScraper.attemptScrape, hl, hb, Except.bind]
    simp [AmazonScraper.scrape, AmazonScraper.scrapeAux,
      AmazonScraper.max_retries, hatt]

/-- C4 amended witness: a navigation fault inside the try body of attempt 1
is contained — the run returns the empty list after that one attempt. -/
theorem scrape_fault_containment_witness :
    AmazonScraper.scrape
      (fun _ => AmazonScraper.attemptScrape navFaultEnv) (fun _ => 7) =
      .ok ([], 1, []) :=
  scrape_fault_containment.2.2 String (fun _ => navFaultEnv) (fun _ => 7)
    "net::ERR_TIMED_OUT" rfl rfl

/-- A base-resolved URL is never empty. -/
lemma append_base_ne_empty (h : String) : AmazonScraper.base_url ++ h ≠ "" := by
  intro heq
  have hd : (AmazonScraper.base_url ++ h).data = ("" : String).data :=
    congrArg String.data heq
  rw [String.data_append] at hd
  have hb : AmazonScraper.base_url.data ≠ [] := by decide
  exact hb (List.append_eq_nil.mp hd).1

/-- A URL produced by `urlOf` is non-empty. -/
lemma urlOf_ne_empty {base : String} {it : AmazonScraper.Item} {u : String}
    (h : AmazonScraper.urlOf base it = some u) : u ≠ "" := by
  unfold AmazonScraper.urlOf at h
  cases hh : AmazonScraper.hrefOf it with
  | none => simp [hh] at h
  | some href =>
    rw [hh] at h
    simp only [beq_iff_eq] at h
    split at h
    · exact absurd h (by simp)
    · rename_i hne
      obtain rfl : _ = u := Option.some.inj h
      exact hne

/-- `extractItem` succeeds exactly when the title resolves non-empty, the
link cascade resolves, the price computation does not fault, and the keep
filter passes; the record is then assembled from those fields. -/
lemma extractItem_char (it : AmazonScraper.Item) (r : AmazonScraper.ProductData) :
    AmazonScraper.extractItem it = some r ↔
      AmazonScraper.titleOf it ≠ "" ∧
      ∃ url, AmazonScraper.urlOf AmazonScraper.base_url it = some url ∧
      ∃ p, AmazonScraper.priceOf it = some p ∧
        (AmazonScraper.pyIn "Lenovo" (AmazonScraper.titleOf it) ||
          decide (0 < p)) = true ∧
        r = ⟨AmazonScraper.titleOf it, some p, url, AmazonScraper.shipsOf it⟩ := by
  unfold AmazonScraper.extractItem
  by_cases ht : AmazonScraper.titleOf it = ""
  · simp [ht]
  · simp only [beq_iff_eq, if_neg ht]
    cases hu : AmazonScraper.urlOf AmazonScraper.base_url it with
    | none => simp [ht]
    | some url =>
      cases hp : AmazonScraper.priceOf it with
      | none => simp [ht]
      | some p =>
        simp only [hu, hp, Option.some.injEq, exists_eq_left,
          exists_eq_left']
        by_cases hc : (AmazonScraper.pyIn "Lenovo" (AmazonScraper.titleOf it) ||
            decide (0 < p)) = true
        · rw [if_pos hc]
          simp only [Option.some.injEq]
          constructor
          · intro hr
            exact ⟨ht, hc, hr.symm⟩
          · rintro ⟨-, -, hr⟩
            exact hr.symm
        · rw [if_neg hc]
          constructor
          · intro h
            exact absurd h (by simp)
          · rintro ⟨-, hfc, -⟩
            exact absurd hfc hc

/-- C5: every record the extractor emits has a non-empty title and a
non-empty URL and passes the keep filter ("Lenovo" in the title or a
positive price); an item whose title resolves empty, whose link cascade
fails, or which fails the filter is discarded; and an item passing all
three stages is kept. -/
theorem record_invariants :
    (∀ (it : AmazonScraper.Item) (r : AmazonScraper.ProductData),
       AmazonScraper.extractItem it = some r →
         r.title ≠ "" ∧ r.url ≠ "" ∧
         (AmazonScraper.pyIn "Lenovo" r.title = true ∨
          ∃ p, r.price_usd = some p ∧ 0 < p)) ∧
    (∀ it : AmazonScraper.Item, AmazonScraper.titleOf it = "" →
       AmazonScraper.extractItem it = none) ∧
    (∀ it : AmazonScraper.Item,
       AmazonScraper.urlOf AmazonScraper.base_url it = none →
       AmazonScraper.extractItem it = none) ∧
    (∀ (it : AmazonScraper.Item) (p : Rat),
       AmazonScraper.priceOf it = some p →
       AmazonScraper.pyIn "Lenovo" (AmazonScraper.titleOf it) = false →
       ¬(0 < p) → AmazonScraper.extractItem it = none) ∧
    (∀ (it : AmazonScraper.Item) (url : String) (p : Rat),
       AmazonScraper.titleOf it ≠ "" →
       AmazonScraper.urlOf AmazonScraper.base_url it = some url →
       AmazonScraper.priceOf it = some p →
       (AmazonScraper.pyIn "Lenovo" (AmazonScraper.titleOf it) = true ∨ 0 < p) →
       AmazonScraper.extractItem it =
         some ⟨AmazonScraper.titleOf it, some p, url, AmazonScraper.shipsOf it⟩) := by
  refine ⟨?_, ?_, ?_, ?_, ?_⟩
  · intro it r h
    obtain ⟨ht, url, hu, p, hp, hc, hr⟩ := (extractItem_char it r).mp h
    subst hr
    refine ⟨ht, urlOf_ne_empty hu, ?_⟩
    rcases Bool.or_eq_true_iff.mp hc with hl | hpos
    · exact Or.inl hl
    · exact Or.inr ⟨p, rfl, of_decide_eq_true hpos⟩
  · intro it ht
    cases h : AmazonScraper.extractItem it with
    | none => rfl
    | some r =>
      obtain ⟨ht2, _⟩ := (extractItem_char it r).mp h
      exact absurd ht ht2
  · intro it hu
    cases h : AmazonScraper.extractItem it with
    | none => rfl
    | some r =>
      obtain ⟨_, url, hu2, _⟩ := (extractItem_char it r).mp h
      rw [hu] at hu2
      exact absurd hu2 (by simp)
  · intro it p hp hl hpos
    cases h : AmazonScraper.extractItem it with
    | none => rfl
    | some r =>
      obtain ⟨_, url, hu2, p2, hp2, hc, _⟩ := (extractItem_char it r).mp h
      rw [hp] at hp2
      obtain rfl : p = p2 := Option.some.inj hp2
      rcases Bool.or_eq_true_iff.mp hc with hl2 | hpos2
      · rw [hl] at hl2; exact absurd hl2 (by simp)
      · exact absurd (of_decide_eq_true hpos2) hpos
  · intro it url p ht hu hp hc
    refine (extractItem_char it _).mpr ⟨ht, url, hu, p, hp, ?_, rfl⟩
    rcases hc with hl | hpos
    · simp [hl]
    · simp [hpos]

/-- An item whose only signals are a long Lenovo title in the image alt and
a primary heading link; the price locator is absent. -/
def lenovoNoPriceItem : AmazonScraper.Item :=
  { imgAlt := some (some "Lenovo ThinkBook 16 G6 IRL 16 inch WUXGA Laptop"),
    h2aSpan := none, spanMedium := none, spanBasePlus := none, h2 := none,
    h2a := some (some "/dp/B0CWRITER"), aLinkNormal := none,
    priceWhole := none, priceFraction := none, delivery := none }

/-- C5 witness: the concrete Lenovo item without a price node is emitted
with a non-empty title, a non-empty URL, and a passing filter. -/
theorem record_invariants_witness :
    ({ title := "Lenovo ThinkBook 16 G6 IRL 16 inch WUXGA Laptop",
       price_usd := some 0,
       url := "https://www.amazon.com/dp/B0CWRITER",
       ships_to_colombia := false } : AmazonScraper.ProductData).title ≠ "" ∧
    ({ title := "Lenovo ThinkBook 16 G6 IRL 16 inch WUXGA Laptop",
       price_usd := some 0,
       url := "https://www.amazon.com/dp/B0CWRITER",
       ships_to_colombia := false } : AmazonScraper.ProductData).url ≠ "" ∧
    (AmazonScraper.pyIn "Lenovo"
       ({ title := "Lenovo ThinkBook 16 G6 IRL 16 inch WUXGA Laptop",
          price_usd := some 0,
          url := "https://www.amazon.com/dp/B0CWRITER",
          ships_to_colombia := false } : AmazonScraper.ProductData).title = true ∨
     ∃ p, ({ title := "Lenovo ThinkBook 16 G6 IRL 16 inch WUXGA Laptop",
             price_usd := some 0,
             url := "https://www.amazon.com/dp/B0CWRITER",
             ships_to_colombia := false } : AmazonScraper.ProductData).price_usd =
           some p ∧ 0 < p) :=
  record_invariants.1 lenovoNoPriceItem _ (by rfl)

/-- C7: the link cascade tries the anchor-within-heading locator first and
falls back to the generic result-link locator; an item is discarded when
both locators miss, when the chosen `href` is null or empty, and otherwise
the URL is the `href` appended to the base URL. -/
theorem link_cascade :
    (∀ it : AmazonScraper.Item, it.h2a = none → it.aLinkNormal = none →
       AmazonScraper.extractItem it = none) ∧
    (∀ (it : AmazonScraper.Item) (h : String), it.h2a = some (some h) →
       h ≠ "" →
       AmazonScraper.urlOf AmazonScraper.base_url it =
         some (AmazonScraper.base_url ++ h)) ∧
    (∀ (it : AmazonScraper.Item) (h : String), it.h2a = none →
       it.aLinkNormal = some (some h) → h ≠ "" →
       AmazonScraper.urlOf AmazonScraper.base_url it =
         some (AmazonScraper.base_url ++ h)) ∧
    (∀ it : AmazonScraper.Item, it.h2a = some none →
       AmazonScraper.extractItem it = none) ∧
    (∀ it : AmazonScraper.Item, it.h2a = some (some "") →
       AmazonScraper.extractItem it = none) := by
  have hnone : ∀ it : AmazonScraper.Item,
      AmazonScraper.urlOf AmazonScraper.base_url it = none →
      AmazonScraper.extractItem it = none := by
    intro it hu
    cases h : AmazonScraper.extractItem it with
    | none => rfl
    | some r =>
      obtain ⟨-, url, hu2, -⟩ := (extractItem_char it r).mp h
      rw [hu] at hu2
      exact absurd hu2 (by simp)
  refine ⟨?_, ?_, ?_, ?_, ?_⟩
  · intro it h1 h2
    apply hnone
    simp [AmazonScraper.urlOf, AmazonScraper.hrefOf, h1, h2]
  · intro it h hh hne
    have hb := append_base_ne_empty h
    simp [AmazonScraper.urlOf, AmazonScraper.hrefOf, hh, hne, hb]
  · intro it h hh1 hh2 hne
    have hb := append_base_ne_empty h
    simp [AmazonScraper.urlOf, AmazonScraper.hrefOf, hh1, hh2, hne, hb]
  · intro it hh
    apply hnone
    simp [AmazonScraper.urlOf, AmazonScraper.hrefOf, hh]
  · intro it hh
    apply hnone
    simp [AmazonScraper.urlOf, AmazonScraper.hrefOf, hh]

/-- An item whose heading anchor is present with a relative `href`. -/
def headingLinkItem : AmazonScraper.Item :=
  { imgAlt := none, h2aSpan := none, spanMedium := none, spanBasePlus := none,
    h2 := none, h2a := some (some "/dp/B0LENOVO16"),
    aLinkNormal := some (some "/ignored"), priceWhole := none,
    priceFraction := none, delivery := none }

/-- C7 witness: the primary heading anchor wins and its relative path is
resolved against the base URL. -/
theorem link_cascade_witness :
    AmazonScraper.urlOf AmazonScraper.base_url headingLinkItem =
      some (AmazonScraper.base_url ++ "/dp/B0LENOVO16") :=
  link_cascade.2.1 headingLinkItem "/dp/B0LENOVO16" rfl (by decide)

/-- C9: the extractor processes at most the first 15 result items in page
order: the output has length at most 15, items beyond the first 15 never
influence the output, and every output record comes from one of the first
15 items. -/
theorem first_fifteen :
    (∀ items : List AmazonScraper.Item,
       (AmazonScraper.extractProducts items).length ≤ 15) ∧
    (∀ items : List AmazonScraper.Item,
       AmazonScraper.extractProducts items =
         AmazonScraper.extractProducts (items.take 15)) ∧
    (∀ xs ys : List AmazonScraper.Item, xs.length = 15 →
       AmazonScraper.extractProducts (xs ++ ys) =
         AmazonScraper.extractProducts xs) ∧
    (∀ (items : List AmazonScraper.Item) (r : AmazonScraper.ProductData),
       r ∈ AmazonScraper.extractProducts items →
       ∃ it ∈ items.take 15, AmazonScraper.extractItem it = some r) := by
  refine ⟨?_, ?_, ?_, ?_⟩
  · intro items
    calc (AmazonScraper.extractProducts items).length
        ≤ (items.take 15).length := List.length_filterMap_le _ _
      _ ≤ 15 := List.length_take_le _ _
  · intro items
    unfold AmazonScraper.extractProducts
    simp [List.take_take]
  · intro xs ys hx
    unfold AmazonScraper.extractProducts
    rw [List.take_append_eq_append_take, ← hx, List.take_length, hx]
    simp
  · intro items r hr
    exact List.mem_filterMap.mp hr

/-- C9 witness: appending a 16th item to a full page of 15 does not change
the output. -/
theorem first_fifteen_witness :
    AmazonScraper.extractProducts
      (List.replicate 15 (⟨none, none, none, none, none, none, none, none,
        none, none⟩ : AmazonScraper.Item) ++
       [⟨none, none, none, none, none, none, none, none, none, none⟩]) =
    AmazonScraper.extractProducts
      (List.replicate 15 (⟨none, none, none, none, none, none, none, none,
        none, none⟩ : AmazonScraper.Item)) :=
  first_fifteen.2.2.1
    (List.replicate 15 ⟨none, none, none, none, none, none, none, none,
      none, none⟩)
    [⟨none, none, none, none, none, none, none, none, none, none⟩]
    (by simp)

/-- A successfully computed price is never negative. -/
lemma priceOf_nonneg {it : AmazonScraper.Item} {p : Rat}
    (h : AmazonScraper.priceOf it = some p) : 0 ≤ p := by
  cases hw : it.priceWhole with
  | none =>
    simp only [AmazonScraper.priceOf, hw] at h
    obtain rfl : (0 : Rat) = p := Option.some.inj h
    exact le_refl 0
  | some w =>
    simp only [AmazonScraper.priceOf, hw] at h
    by_cases hd : AmazonScraper.pyIsDigit (AmazonScraper.cleanWhole w) = true
    · rw [if_pos hd] at h
      unfold AmazonScraper.pyFloatDot at h
      by_cases hf : (it.priceFraction.getD "00").toList.all Char.isDigit = true
      · rw [if_pos hf] at h
        obtain rfl := Option.some.inj h
        positivity
      · rw [if_neg hf] at h
        exact absurd h (by simp)
    · rw [if_neg hd] at h
      obtain rfl : (0 : Rat) = p := Option.some.inj h
      exact le_refl 0

/-- C10: every emitted record carries a present (`some`) non-negative
price; an absent whole-part node, or a non-numeric cleaned whole part, is
encoded as the sentinel 0, indistinguishable at the record level from a
true zero price. -/
theorem price_sentinel :
    (∀ (items : List AmazonScraper.Item) (r : AmazonScraper.ProductData),
       r ∈ AmazonScraper.extractProducts items →
       ∃ p, r.price_usd = some p ∧ 0 ≤ p) ∧
    (∀ (it : AmazonScraper.Item) (r : AmazonScraper.ProductData),
       AmazonScraper.extractItem it = some r → r.price_usd ≠ none) ∧
    (∀ (it : AmazonScraper.Item) (r : AmazonScraper.ProductData),
       it.priceWhole = none → AmazonScraper.extractItem it = some r →
       r.price_usd = some 0) ∧
    (∀ (it : AmazonScraper.Item) (r : AmazonScraper.ProductData) (w : String),
       it.priceWhole = some w →
       AmazonScraper.pyIsDigit (AmazonScraper.cleanWhole w) = false →
       AmazonScraper.extractItem it = some r → r.price_usd = some 0) := by
  have hemit : ∀ (it : AmazonScraper.Item) (r : AmazonScraper.ProductData),
      AmazonScraper.extractItem it = some r →
      ∃ p, r.price_usd = some p ∧ AmazonScraper.priceOf it = some p := by
    intro it r h
    obtain ⟨-, url, -, p, hp, -, hr⟩ := (extractItem_char it r).mp h
    subst hr
    exact ⟨p, rfl, hp⟩
  refine ⟨?_, ?_, ?_, ?_⟩
  · intro items r hr
    obtain ⟨it, -, hit⟩ := List.mem_filterMap.mp hr
    obtain ⟨p, hp, hpo⟩ := hemit it r hit
    exact ⟨p, hp, priceOf_nonneg hpo⟩
  · intro it r h
    obtain ⟨p, hp, -⟩ := hemit it r h
    rw [hp]
    simp
  · intro it r hw h
    obtain ⟨p, hp, hpo⟩ := hemit it r h
    simp only [AmazonScraper.priceOf, hw] at hpo
    obtain rfl : (0 : Rat) = p := Option.some.inj hpo
    exact hp
  · intro it r w hw hd h
    obtain ⟨p, hp, hpo⟩ := hemit it r h
    simp only [AmazonScraper.priceOf, hw] at hpo
    rw [if_neg (by rw [hd]; exact Bool.false_ne_true)] at hpo
    obtain rfl : (0 : Rat) = p := Option.some.inj hpo
    exact hp

/-- C10 witness: the concrete Lenovo item without a price node is emitted
with the sentinel price `some 0`. -/
theorem price_sentinel_witness :
    ({ title := "Lenovo ThinkBook 16 G6 IRL 16 inch WUXGA Laptop",
       price_usd := some 0,
       url := "https://www.amazon.com/dp/B0CWRITER",
       ships_to_colombia := false } : AmazonScraper.ProductData).price_usd =
      some 0 :=
  price_sentinel.2.2.1 lenovoNoPriceItem _ rfl (by rfl)

/-- C6: the fraction text defaults to "00" when its node is absent; with
the whole part cleaned of separators and punctuation, the price composes
as the decimal `whole.fraction` exactly when the cleaned whole part is all
digits (shown for digit fractions; a malformed fraction faults the item,
`none`); a non-numeric cleaned whole part leaves the price absent — the 0
sentinel — never a partial numeric value. -/
theorem price_composition :
    (∀ (it : AmazonScraper.Item) (w : String), it.priceWhole = some w →
       it.priceFraction = none →
       AmazonScraper.priceOf it =
         (if AmazonScraper.pyIsDigit (AmazonScraper.cleanWhole w) then
            AmazonScraper.pyFloatDot (AmazonScraper.cleanWhole w) "00"
          else some 0)) ∧
    (∀ (it : AmazonScraper.Item) (w : String), it.priceWhole = some w →
       AmazonScraper.pyIsDigit (AmazonScraper.cleanWhole w) = false →
       AmazonScraper.priceOf it = some 0) ∧
    (∀ (it : AmazonScraper.Item) (w f : String), it.priceWhole = some w →
       it.priceFraction = some f →
       AmazonScraper.pyIsDigit (AmazonScraper.cleanWhole w) = true →
       f.toList.all Char.isDigit = true →
       AmazonScraper.priceOf it =
         some ((AmazonScraper.digitsVal (AmazonScraper.cleanWhole w) : Rat) +
           (AmazonScraper.digitsVal f : Rat) / 10 ^ f.length)) ∧
    (∀ (it : AmazonScraper.Item) (w f : String), it.priceWhole = some w →
       it.priceFraction = some f →
       AmazonScraper.pyIsDigit (AmazonScraper.cleanWhole w) = true →
       f.toList.all Char.isDigit = false →
       AmazonScraper.priceOf it = none) := by
  refine ⟨?_, ?_, ?_, ?_⟩
  · intro it w hw hf
    simp only [AmazonScraper.priceOf, hw, hf, Option.getD_none]
  · intro it w hw hd
    simp only [AmazonScraper.priceOf, hw]
    rw [if_neg (by rw [hd]; exact Bool.false_ne_true)]
  · intro it w f hw hf hd hfd
    simp only [AmazonScraper.priceOf, hw, hf, Option.getD_some, if_pos hd]
    unfold AmazonScraper.pyFloatDot
    rw [if_pos hfd]
  · intro it w f hw hf hd hfd
    simp only [AmazonScraper.priceOf, hw, hf, Option.getD_some, if_pos hd]
    unfold AmazonScraper.pyFloatDot
    rw [if_neg (by rw [hfd]; exact Bool.false_ne_true)]

/-- An item carrying a thousands-separated whole part and a digit
fraction. -/
def sepPriceItem : AmazonScraper.Item :=
  { imgAlt := none, h2aSpan := none, spanMedium := none, spanBasePlus := none,
    h2 := none, h2a := none, aLinkNormal := none,
    priceWhole := some "1,299", priceFraction := some "99", delivery := none }

/-- C6 witness: the separated whole part "1,299" with fraction "99"
composes to the decimal value of "1299.99". -/
theorem price_composition_witness :
    AmazonScraper.priceOf sepPriceItem =
      some ((AmazonScraper.digitsVal (AmazonScraper.cleanWhole "1,299") : Rat) +
        (AmazonScraper.digitsVal "99" : Rat) / 10 ^ ("99" : String).length) :=
  price_composition.2.2.1 sepPriceItem "1,299" "99" rfl rfl (by decide) (by decide)

